import Mathlib

/-!
Verification development for the mlflow-example repository.

The repository is a single notebook (mlflow_example.ipynb) that trains a
three-layer fully connected classifier on MNIST with SGD for five epochs,
logs two parameters and two per-epoch metrics to an MLflow tracking server,
logs and registers the trained model, reloads it by registry URI and runs
one arg-max inference on a single test image.

The shallow embedding below models:
  - tensors as rational-valued vectors (a row of width n is a function
    from Fin n to the rationals, a flat tensor is a list of rationals);
  - the SimpleNN module (fc1, fc2, fc3 and the forward method with its
    view reshape and relu activations);
  - the training / evaluation loops as folds over batch lists, with the
    library-supplied optimizer step and loss criterion as abstract
    function parameters (autodiff and the loss kernel live in torch);
  - the sequence of tracking calls of the run as an event trace;
  - the tracking store and model registry (log_model, register_model,
    load_model), modelled from the spec since their implementation lives
    in the mlflow library;
  - the whole script as a chain of fallible steps in the Except monad,
    mirroring the absence of any try/except in the notebook.
-/

set_option autoImplicit false

namespace MlflowExample

/-- A tensor row of width n with rational entries. -/
def Vec (n : Nat) : Type := Fin n → ℚ

/-- An nn.Linear layer: a weight matrix and a bias vector. -/
structure Linear (inFeatures outFeatures : Nat) where
  weight : Fin outFeatures → Fin inFeatures → ℚ
  bias : Fin outFeatures → ℚ

/-- Applying an nn.Linear layer: y = W x + b. -/
def Linear.apply {i o : Nat} (l : Linear i o) (x : Vec i) : Vec o :=
  fun r => (∑ c, l.weight r c * x c) + l.bias r

/-- torch.relu on one scalar entry. -/
def relu (q : ℚ) : ℚ := max q 0

/-- torch.relu applied elementwise to a row. -/
def reluV {n : Nat} (v : Vec n) : Vec n := fun j => relu (v j)

/-- The SimpleNN module of the notebook: fc1 = nn.Linear(28 * 28, 128),
fc2 = nn.Linear(128, 64), fc3 = nn.Linear(64, 10). -/
structure SimpleNN where
  fc1 : Linear (28 * 28) 128
  fc2 : Linear 128 64
  fc3 : Linear 64 10

/-- The body of SimpleNN.forward on one already-reshaped row:
x = torch.relu(self.fc1(x)); x = torch.relu(self.fc2(x)); x = self.fc3(x). -/
def SimpleNN.forwardRow (net : SimpleNN) (x : Vec (28 * 28)) : Vec 10 :=
  let x1 := reluV (net.fc1.apply x)
  let x2 := reluV (net.fc2.apply x1)
  net.fc3.apply x2

/-- The x.view(-1, 28 * 28) reshape: succeeds exactly when the flat element
count is a multiple of 28 * 28, inferring the batch dimension, and fails
otherwise. -/
def viewRows (data : List ℚ) : Option (List (Vec (28 * 28))) :=
  if data.length % (28 * 28) = 0 then
    some ((List.range (data.length / (28 * 28))).map
      (fun i => fun j : Fin (28 * 28) => data.getD (i * (28 * 28) + j.val) 0))
  else none

/-- SimpleNN.forward on a flat input tensor: reshape via view(-1, 28 * 28),
then apply the layer stack to every row. -/
def SimpleNN.forward (net : SimpleNN) (data : List ℚ) : Option (List (Vec 10)) :=
  (viewRows data).map (fun rows => rows.map net.forwardRow)

/-- torch.argmax over the 10 logits: first index attaining the maximum. -/
def argmax10 (v : Vec 10) : Fin 10 :=
  (List.finRange 10).foldl (fun best j => if v best < v j then j else best) 0

/-- The result of one predict_and_visualize call: the logits of the single
forward pass, the reported predicted digit, the displayed image and the true
label from the dataset. -/
structure Prediction where
  logits : Vec 10
  predicted : Fin 10
  image : Vec (28 * 28)
  trueLabel : Fin 10

/-- predict_and_visualize(model, dataset, index): look the image up in the
dataset (an out-of-range index is the error case), add a batch dimension,
run one forward pass under no_grad, and report the arg-max of the logits. -/
def predict_and_visualize (model : SimpleNN) (dataset : List (Vec (28 * 28) × Fin 10))
    (index : Nat) : Option Prediction :=
  match dataset.get? index with
  | none => none
  | some (img, lab) =>
    let logits := model.forwardRow img
    let predicted := argmax10 logits
    some { logits := logits, predicted := predicted, image := img, trueLabel := lab }

/-- One batch yielded by a DataLoader: images and their labels. -/
structure Batch where
  images : List (Vec (28 * 28))
  labels : List (Fin 10)

/-- The type of the loss criterion (nn.CrossEntropyLoss lives in torch and is
kept abstract): batch logits and batch labels to a scalar loss. -/
def Criterion : Type := List (Vec 10) → List (Fin 10) → ℚ

/-- The type of one optimizer update (optimizer.zero_grad, loss.backward,
optimizer.step live in torch and are kept abstract): the parameters and the
current batch determine the updated parameters. -/
def OptimStep : Type := SimpleNN → Batch → SimpleNN

/-- The inner training loop of one epoch: for each batch compute the model
output and its loss, take one optimizer step, and accumulate running_loss;
returns the updated model and running_loss. -/
def trainPhase (stepFn : OptimStep) (criterion : Criterion)
    (model : SimpleNN) (batches : List Batch) : SimpleNN × ℚ :=
  batches.foldl
    (fun st b =>
      let output := b.images.map st.1.forwardRow
      let loss := criterion output b.labels
      (stepFn st.1 b, st.2 + loss))
    (model, 0)

/-- The per-batch loss values computed along the training trajectory of one
epoch, in iteration order. -/
def batchLossValues (stepFn : OptimStep) (criterion : Criterion) :
    SimpleNN → List Batch → List ℚ
  | _, [] => []
  | m, b :: bs =>
    criterion (b.images.map m.forwardRow) b.labels ::
      batchLossValues stepFn criterion (stepFn m b) bs

/-- average_train_loss = running_loss / len(train_loader). -/
def average_train_loss (stepFn : OptimStep) (criterion : Criterion)
    (model : SimpleNN) (batches : List Batch) : ℚ :=
  (trainPhase stepFn criterion model batches).2 / batches.length

/-- The evaluation loop of one epoch, run under torch.no_grad with no
optimizer step: for each test batch compute the output and accumulate
test_loss; the model is carried through unchanged. -/
def evalPhase (criterion : Criterion) (model : SimpleNN) (batches : List Batch) :
    SimpleNN × ℚ :=
  batches.foldl
    (fun st b =>
      let output := b.images.map st.1.forwardRow
      let loss := criterion output b.labels
      (st.1, st.2 + loss))
    (model, 0)

/-- average_test_loss = test_loss / len(test_loader). -/
def average_test_loss (criterion : Criterion) (model : SimpleNN)
    (batches : List Batch) : ℚ :=
  (evalPhase criterion model batches).2 / batches.length

/-- epochs = 5 in the notebook. -/
def epochs : Nat := 5

/-- The learning rate of optim.SGD(model.parameters(), lr=0.003, momentum=0.9). -/
def sgd_lr : ℚ := 3 / 1000

/-- The momentum of optim.SGD(model.parameters(), lr=0.003, momentum=0.9). -/
def sgd_momentum : ℚ := 9 / 10

/-- The value logged by mlflow.log_param("learning_rate", 0.003). -/
def logged_learning_rate : ℚ := 3 / 1000

/-- The value logged by mlflow.log_param("momentum", 0.003). -/
def logged_momentum : ℚ := 3 / 1000

/-- One observable tracking call made by the script under its single run. -/
inductive Event where
  | startRun : Event
  | logParam (name : String) (value : ℚ) : Event
  | logMetric (name : String) (value : ℚ) (step : Nat) : Event
  | logModel (artifactPath : String) : Event
  | registerModel (modelUri : String) (name : String) : Event
deriving DecidableEq

/-- Whether an event is the opening of a run record. -/
def Event.isStartRun : Event → Bool
  | .startRun => true
  | _ => false

/-- Whether an event logs a parameter. -/
def Event.isParam : Event → Bool
  | .logParam _ _ => true
  | _ => false

/-- Whether an event logs a metric (any name, any step). -/
def Event.isMetric : Event → Bool
  | .logMetric _ _ _ => true
  | _ => false

/-- Whether an event logs a metric at the given step index. -/
def Event.isMetricAtStep (e : Nat) : Event → Bool
  | .logMetric _ _ s => s == e
  | _ => false

/-- The two tracking calls issued at the end of epoch e: log the average
training loss and the average test loss, both at step e. -/
def epochEvents (trainAvg testAvg : Nat → ℚ) (e : Nat) : List Event :=
  [Event.logMetric "average_train_loss" (trainAvg e) e,
   Event.logMetric "average_test_loss" (testAvg e) e]

/-- The full trace of tracking calls of one successful script execution,
parameterized by the per-epoch average losses the run computes: start one
run, log the two parameters, loop over the five epochs, then log and
register the model. -/
def runEvents (trainAvg testAvg : Nat → ℚ) : List Event :=
  Event.startRun ::
  Event.logParam "learning_rate" logged_learning_rate ::
  Event.logParam "momentum" logged_momentum ::
  ((List.range epochs).map (epochEvents trainAvg testAvg)).flatten ++
  [Event.logModel "mnist_model",
   Event.registerModel "runs:/RUN_ID/mnist_model" "MNISTModel"]

/-- The value recorded for a parameter name in a trace (first write wins;
the script writes each name once). -/
def paramValue (events : List Event) (name : String) : Option ℚ :=
  events.findSome? (fun ev =>
    match ev with
    | Event.logParam n v => if n = name then some v else none
    | _ => none)

/-- Modelled from the spec: the tracking service's artifact store and model
registry. The notebook only calls mlflow.pytorch.log_model,
mlflow.register_model and mlflow.pytorch.load_model; their storage lives in
the mlflow library, so per the spec a run artifact is a model stored under a
run id and a path, and a registered model entry is a named list of versions,
version numbers starting at 1 in registration order. -/
structure TrackingStore where
  runArtifacts : String → String → Option SimpleNN
  registry : String → List SimpleNN

/-- Modelled from the spec: mlflow.pytorch.log_model stores the model as an
artifact of the active run under the given artifact path. -/
def TrackingStore.logModel (s : TrackingStore) (runId path : String)
    (m : SimpleNN) : TrackingStore :=
  { s with runArtifacts := fun r p =>
      if r = runId ∧ p = path then some m else s.runArtifacts r p }

/-- Modelled from the spec: mlflow.register_model resolves the runs:/ URI to
the stored artifact and appends it as the next version under the registered
name; it fails when no such artifact exists. -/
def TrackingStore.registerModel (s : TrackingStore) (runId path name : String) :
    Option TrackingStore :=
  match s.runArtifacts runId path with
  | none => none
  | some m =>
    some { s with registry := fun n =>
        if n = name then s.registry name ++ [m] else s.registry n }

/-- Modelled from the spec: mlflow.pytorch.load_model resolves a registered
name and a version number to the stored model; version v is the v-th
registered artifact and versions start at 1, so any version never created
fails to resolve. -/
def TrackingStore.loadModel (s : TrackingStore) (name : String) (version : Nat) :
    Option SimpleNN :=
  if version = 0 then none else (s.registry name).get? (version - 1)

/-- A registry reference to a registered model name at a version number, in
the models:/name/version URI scheme the registry read path accepts. -/
def modelsUri (name : String) (version : Nat) : String :=
  "models:/" ++ name ++ "/" ++ toString version

/-- The registry URI the notebook requests: models:/MNISTModel/1. -/
def script_model_uri : String := "models:/MNISTModel/1"

/-- The outcomes of the external library calls the script makes, each
fallible call an Except value: the notebook installs no handler around any
of them. -/
structure Env where
  setExperiment : Except String Unit
  loadTrainData : Except String (List Batch)
  loadTestData : Except String (List Batch)
  testDataset : List (Vec (28 * 28) × Fin 10)
  startRun : Except String String
  logParamC : String → ℚ → Except String Unit
  logMetricC : String → ℚ → Nat → Except String Unit
  stepFn : OptimStep
  criterion : Criterion
  logModelC : String → SimpleNN → Except String Unit
  registerModelC : String → String → Except String Unit
  loadModelC : String → Except String SimpleNN

/-- The epoch loop of the script: at epoch index i with k epochs left, run
the training fold, log average_train_loss at step i, run the evaluation
fold, log average_test_loss at step i, and recurse on the trained model. -/
def runEpochs (env : Env) (trainB testB : List Batch) :
    Nat → Nat → SimpleNN → Except String SimpleNN
  | _, 0, m => Except.ok m
  | i, k + 1, m => do
    let st := trainPhase env.stepFn env.criterion m trainB
    env.logMetricC "average_train_loss" (st.2 / trainB.length) i
    let ev := evalPhase env.criterion st.1 testB
    env.logMetricC "average_test_loss" (ev.2 / testB.length) i
    runEpochs env trainB testB (i + 1) k st.1

/-- The model evolution of the epoch loop alone, with the logging stripped:
each epoch replaces the model by the result of the training fold. -/
def pureEpochs (stepFn : OptimStep) (criterion : Criterion)
    (trainB : List Batch) : Nat → SimpleNN → SimpleNN
  | 0, m => m
  | k + 1, m => pureEpochs stepFn criterion trainB k (trainPhase stepFn criterion m trainB).1

/-- The whole notebook as a chain of fallible steps, in source order, with
no step catching, retrying or recovering: configure the experiment, load the
two dataset splits, start the run, log the two parameters, run the epoch
loop, log and register the model, reload it by registry URI and run
predict_and_visualize on test index 0 (an out-of-range index there is an
uncaught IndexError). -/
def script (env : Env) (model0 : SimpleNN) : Except String (Fin 10) := do
  env.setExperiment
  let trainB ← env.loadTrainData
  let testB ← env.loadTestData
  let runId ← env.startRun
  env.logParamC "learning_rate" logged_learning_rate
  env.logParamC "momentum" logged_momentum
  let m ← runEpochs env trainB testB 0 epochs model0
  env.logModelC "mnist_model" m
  env.registerModelC ("runs:/" ++ runId ++ "/mnist_model") "MNISTModel"
  let loaded ← env.loadModelC script_model_uri
  match predict_and_visualize loaded env.testDataset 0 with
  | none => Except.error "IndexError"
  | some r => Except.ok r.predicted

/-- An all-zero network, used to instantiate theorems at concrete inputs. -/
def zeroNet : SimpleNN :=
  { fc1 := { weight := fun _ _ => 0, bias := fun _ => 0 },
    fc2 := { weight := fun _ _ => 0, bias := fun _ => 0 },
    fc3 := { weight := fun _ _ => 0, bias := fun _ => 0 } }

/-- A tracking store with no artifacts and no registered models, used to
instantiate theorems at concrete inputs. -/
def emptyStore : TrackingStore :=
  { runArtifacts := fun _ _ => none, registry := fun _ => [] }

/-- The prediction computed by the all-zero network on an all-zero image. -/
def zeroPrediction : Prediction :=
  { logits := zeroNet.forwardRow (fun _ => 0),
    predicted := argmax10 (zeroNet.forwardRow (fun _ => 0)),
    image := fun _ => 0,
    trueLabel := 0 }

/-- An environment in which configuring the experiment fails (the tracking
server is unreachable) and every other call would succeed. -/
def failEnv : Env :=
  { setExperiment := Except.error "ConnectionError",
    loadTrainData := Except.ok [],
    loadTestData := Except.ok [],
    testDataset := [],
    startRun := Except.ok "run0",
    logParamC := fun _ _ => Except.ok (),
    logMetricC := fun _ _ _ => Except.ok (),
    stepFn := fun m _ => m,
    criterion := fun _ _ => 0,
    logModelC := fun _ _ => Except.ok (),
    registerModelC := fun _ _ => Except.ok (),
    loadModelC := fun _ => Except.ok zeroNet }

/-! ### Helper lemmas -/

/-- Helper: the accumulated loss of the training fold is the starting value
plus the sum of the per-batch loss values along the trajectory. -/
theorem foldl_train_loss_acc (stepFn : OptimStep) (criterion : Criterion) :
    ∀ (bs : List Batch) (m : SimpleNN) (q : ℚ),
      (bs.foldl (fun (st : SimpleNN × ℚ) b =>
        (stepFn st.1 b, st.2 + criterion (b.images.map st.1.forwardRow) b.labels)) (m, q)).2
      = q + (batchLossValues stepFn criterion m bs).sum := by
  intro bs
  induction bs with
  | nil => intro m q; simp [batchLossValues]
  | cons b bs ih =>
    intro m q
    simp only [List.foldl_cons, batchLossValues, List.sum_cons]
    rw [ih]
    ring

/-- Helper: running_loss of one training epoch is the sum of the per-batch
loss values. -/
theorem trainPhase_snd (stepFn : OptimStep) (criterion : Criterion)
    (model : SimpleNN) (batches : List Batch) :
    (trainPhase stepFn criterion model batches).2 =
      (batchLossValues stepFn criterion model batches).sum := by
  simpa [trainPhase] using foldl_train_loss_acc stepFn criterion batches model 0

/-- Helper: every per-batch loss value is non-negative when the criterion is
non-negative. -/
theorem batchLossValues_nonneg (stepFn : OptimStep) (criterion : Criterion)
    (hnn : ∀ out labs, 0 ≤ criterion out labs) :
    ∀ (bs : List Batch) (m : SimpleNN), ∀ x ∈ batchLossValues stepFn criterion m bs, 0 ≤ x := by
  intro bs
  induction bs with
  | nil => intro m x hx; simp [batchLossValues] at hx
  | cons b bs ih =>
    intro m x hx
    simp only [batchLossValues, List.mem_cons] at hx
    rcases hx with h | h
    · exact h ▸ hnn _ _
    · exact ih _ x h

/-- Helper: the evaluation fold carries the model through unchanged. -/
theorem foldl_eval_fst (criterion : Criterion) :
    ∀ (bs : List Batch) (m : SimpleNN) (q : ℚ),
      (bs.foldl (fun (st : SimpleNN × ℚ) b =>
        (st.1, st.2 + criterion (b.images.map st.1.forwardRow) b.labels)) (m, q)).1 = m := by
  intro bs
  induction bs with
  | nil => intro m q; rfl
  | cons b bs ih => intro m q; simpa [List.foldl_cons] using ih m _

/-- Helper: the base of the arg-max fold never beats the fold's result. -/
theorem argmax_foldl_base_le (v : Vec 10) :
    ∀ (l : List (Fin 10)) (b : Fin 10),
      v b ≤ v (l.foldl (fun best j => if v best < v j then j else best) b) := by
  intro l
  induction l with
  | nil => intro b; exact le_refl _
  | cons x l ih =>
    intro b
    rw [List.foldl_cons]
    by_cases h : v b < v x
    · rw [if_pos h]; exact le_of_lt (lt_of_lt_of_le h (ih x))
    · rw [if_neg h]; exact ih b

/-- Helper: every candidate visited by the arg-max fold is at most the
fold's result. -/
theorem argmax_foldl_mem_le (v : Vec 10) :
    ∀ (l : List (Fin 10)) (b : Fin 10), ∀ j ∈ l,
      v j ≤ v (l.foldl (fun best j => if v best < v j then j else best) b) := by
  intro l
  induction l with
  | nil => intro b j hj; simp at hj
  | cons x l ih =>
    intro b j hj
    rw [List.foldl_cons]
    rcases List.mem_cons.mp hj with h | h
    · subst h
      by_cases hbx : v b < v j
      · rw [if_pos hbx]; exact argmax_foldl_base_le v l j
      · rw [if_neg hbx]; exact argmax_foldl_base_le v l b |>.trans' (not_lt.mp hbx)
    · exact ih _ j h

/-- Helper: every logit is at most the logit at the arg-max index. -/
theorem argmax10_le (v : Vec 10) (j : Fin 10) : v j ≤ v (argmax10 v) :=
  argmax_foldl_mem_le v (List.finRange 10) 0 j (List.mem_finRange j)

/-! ### Claim theorems -/

/-- C3: the model's forward computation on every input row equals
fc3(relu(fc2(relu(fc1(x))))): a relu is applied after the first and second
linear layers and none after the third; forward is a pure function of the
network parameters and the input, mutating no state. -/
theorem forwardRow_is_relu_composition (net : SimpleNN) (x : Vec (28 * 28)) :
    net.forwardRow x =
      net.fc3.apply (reluV (net.fc2.apply (reluV (net.fc1.apply x)))) := rfl

/-- C9: the per-epoch test evaluation leaves the model's parameters
unchanged: the evaluation fold runs with no optimizer step, so the model
component of its state after the pass equals the model before it. -/
theorem evalPhase_preserves_model (criterion : Criterion) (model : SimpleNN)
    (batches : List Batch) :
    (evalPhase criterion model batches).1 = model := by
  simpa [evalPhase] using foldl_eval_fst criterion batches model 0

/-- C2: the parameter logged under the name momentum has value 0.003 while
the optimizer is constructed with momentum 0.9, so the logged momentum never
equals the momentum used in training; the logged learning rate 0.003 does
equal the optimizer's lr. -/
theorem logged_momentum_mismatch (trainAvg testAvg : Nat → ℚ) :
    paramValue (runEvents trainAvg testAvg) "momentum" = some logged_momentum ∧
    logged_momentum ≠ sgd_momentum ∧
    paramValue (runEvents trainAvg testAvg) "learning_rate" = some logged_learning_rate ∧
    logged_learning_rate = sgd_lr := by
  refine ⟨?_, by norm_num [logged_momentum, sgd_momentum], ?_,
    by norm_num [logged_learning_rate, sgd_lr]⟩
  · simp [paramValue, runEvents, List.findSome?]
  · simp [paramValue, runEvents, List.findSome?]

/-- C4: for every epoch with a non-empty batch list, the average training
loss equals the sum of the per-batch loss values divided by the number of
batches, the divisor is positive, and (the criterion being non-negative, as
cross-entropy is) the average is a non-negative rational scalar. -/
theorem average_train_loss_sum_nonneg (stepFn : OptimStep) (criterion : Criterion)
    (model : SimpleNN) (batches : List Batch)
    (hne : batches ≠ [])
    (hnn : ∀ out labs, 0 ≤ criterion out labs) :
    average_train_loss stepFn criterion model batches
      = (batchLossValues stepFn criterion model batches).sum / batches.length ∧
    (0 : ℚ) < batches.length ∧
    0 ≤ average_train_loss stepFn criterion model batches := by
  have heq : average_train_loss stepFn criterion model batches
      = (batchLossValues stepFn criterion model batches).sum / batches.length := by
    rw [average_train_loss, trainPhase_snd]
  have hpos : (0 : ℚ) < batches.length := by
    exact_mod_cast List.length_pos.mpr hne
  refine ⟨heq, hpos, ?_⟩
  rw [heq]
  exact div_nonneg
    (List.sum_nonneg (batchLossValues_nonneg stepFn criterion hnn batches model))
    (le_of_lt hpos)

/-- Witness for C4 at a concrete epoch: one batch, constant criterion 1. -/
theorem average_train_loss_sum_nonneg_witness :
    average_train_loss (fun m _ => m) (fun _ _ => 1) zeroNet [{ images := [], labels := [] }]
      = (batchLossValues (fun m _ => m) (fun _ _ => 1) zeroNet
          [{ images := [], labels := [] }]).sum /
        ([{ images := [], labels := [] }] : List Batch).length ∧
    (0 : ℚ) < ([{ images := [], labels := [] }] : List Batch).length ∧
    0 ≤ average_train_loss (fun m _ => m) (fun _ _ => 1) zeroNet
        [{ images := [], labels := [] }] :=
  average_train_loss_sum_nonneg (fun m _ => m) (fun _ _ => 1) zeroNet
    [{ images := [], labels := [] }] (by simp) (fun _ _ => by norm_num)

/-- C10: forward accepts any flat input whose element count is a multiple of
784, reshaping via view(-1, 784) and returning one 10-logit row per inferred
batch element; the reshape error branch is reachable exactly when the
element count is not a multiple of 784. -/
theorem forward_shape (net : SimpleNN) (data : List ℚ) :
    (¬ (28 * 28 ∣ data.length) → net.forward data = none) ∧
    (28 * 28 ∣ data.length →
      ∃ out, net.forward data = some out ∧ out.length = data.length / (28 * 28)) := by
  constructor
  · intro h
    have hm : ¬ data.length % (28 * 28) = 0 := by omega
    simp [SimpleNN.forward, viewRows, hm]
  · intro h
    have hm : data.length % (28 * 28) = 0 := by omega
    refine ⟨((List.range (data.length / (28 * 28))).map
        (fun i => fun j : Fin (28 * 28) => data.getD (i * (28 * 28) + j.val) 0)).map
          net.forwardRow, ?_, ?_⟩
    · simp [SimpleNN.forward, viewRows, hm]
    · simp

/-- Witness for C10: a single-element tensor is rejected, a 784-element
tensor is reshaped into one row of 10 logits. -/
theorem forward_shape_witness :
    zeroNet.forward [0] = none ∧
    ∃ out, zeroNet.forward (List.replicate (28 * 28) 0) = some out ∧
      out.length = (List.replicate (28 * 28) (0 : ℚ)).length / (28 * 28) := by
  constructor
  · exact (forward_shape zeroNet [0]).1 (by simp)
  · exact (forward_shape zeroNet (List.replicate (28 * 28) 0)).2
      (by rw [List.length_replicate])

/-- Helper: the trace of one successful execution, written out in full. -/
theorem runEvents_eq (trainAvg testAvg : Nat → ℚ) :
    runEvents trainAvg testAvg =
      [Event.startRun,
       Event.logParam "learning_rate" logged_learning_rate,
       Event.logParam "momentum" logged_momentum,
       Event.logMetric "average_train_loss" (trainAvg 0) 0,
       Event.logMetric "average_test_loss" (testAvg 0) 0,
       Event.logMetric "average_train_loss" (trainAvg 1) 1,
       Event.logMetric "average_test_loss" (testAvg 1) 1,
       Event.logMetric "average_train_loss" (trainAvg 2) 2,
       Event.logMetric "average_test_loss" (testAvg 2) 2,
       Event.logMetric "average_train_loss" (trainAvg 3) 3,
       Event.logMetric "average_test_loss" (testAvg 3) 3,
       Event.logMetric "average_train_loss" (trainAvg 4) 4,
       Event.logMetric "average_test_loss" (testAvg 4) 4,
       Event.logModel "mnist_model",
       Event.registerModel "runs:/RUN_ID/mnist_model" "MNISTModel"] := rfl

/-- C1: a full script execution produces exactly one run record containing
exactly the two parameters learning_rate and momentum, exactly 2 times 5
logged metrics in total, and for each epoch e below 5 exactly the two
metrics average_train_loss and average_test_loss recorded at step e. -/
theorem run_trace_structure (trainAvg testAvg : Nat → ℚ) :
    ((runEvents trainAvg testAvg).filter Event.isStartRun).length = 1 ∧
    (runEvents trainAvg testAvg).filter Event.isParam =
      [Event.logParam "learning_rate" logged_learning_rate,
       Event.logParam "momentum" logged_momentum] ∧
    ((runEvents trainAvg testAvg).filter Event.isMetric).length = 2 * epochs ∧
    ∀ e, e < epochs →
      (runEvents trainAvg testAvg).filter (Event.isMetricAtStep e) =
        [Event.logMetric "average_train_loss" (trainAvg e) e,
         Event.logMetric "average_test_loss" (testAvg e) e] := by
  rw [runEvents_eq]
  refine ⟨?_, ?_, ?_, ?_⟩
  · simp [Event.isStartRun, Event.isParam, Event.isMetric, List.filter]
  · simp [Event.isStartRun, Event.isParam, Event.isMetric, List.filter]
  · simp [Event.isStartRun, Event.isParam, Event.isMetric, List.filter, epochs]
  · intro e he
    have h5 : e < 5 := he
    interval_cases e <;> simp [Event.isMetricAtStep, List.filter]

/-- Witness for C1 at epoch 0 with zero average losses. -/
theorem run_trace_structure_witness :
    (runEvents (fun _ => 0) (fun _ => 0)).filter (Event.isMetricAtStep 0) =
      [Event.logMetric "average_train_loss" 0 0,
       Event.logMetric "average_test_loss" 0 0] :=
  (run_trace_structure (fun _ => 0) (fun _ => 0)).2.2.2 0 (by decide)

/-- C7: inference is deterministic, a fixed model and dataset index fully
determine the result of predict_and_visualize, and the predicted digit it
reports is exactly the arg-max of the 10 logits of the single forward pass. -/
theorem predict_deterministic_argmax (model : SimpleNN)
    (dataset : List (Vec (28 * 28) × Fin 10)) (index : Nat) :
    (∀ r₁ r₂, predict_and_visualize model dataset index = some r₁ →
        predict_and_visualize model dataset index = some r₂ → r₁ = r₂) ∧
    (∀ r, predict_and_visualize model dataset index = some r →
        r.predicted = argmax10 r.logits ∧ ∀ j, r.logits j ≤ r.logits r.predicted) := by
  constructor
  · intro r₁ r₂ h1 h2
    rw [h1] at h2
    exact Option.some.inj h2
  · intro r hr
    rw [predict_and_visualize] at hr
    cases hget : dataset.get? index with
    | none => rw [hget] at hr; cases hr
    | some p =>
      obtain ⟨img, lab⟩ := p
      rw [hget] at hr
      simp only [Option.some.injEq] at hr
      subst hr
      refine ⟨Eq.refl (argmax10 (model.forwardRow img)), ?_⟩
      show ∀ j, model.forwardRow img j ≤
        model.forwardRow img (argmax10 (model.forwardRow img))
      exact fun j => argmax10_le _ j

/-- Witness for C7: the all-zero network on a one-element dataset. -/
theorem predict_deterministic_argmax_witness :
    predict_and_visualize zeroNet [((fun _ => 0), 0)] 0 = some zeroPrediction ∧
    zeroPrediction.predicted = argmax10 zeroPrediction.logits := by
  have hr : predict_and_visualize zeroNet [((fun _ => 0), 0)] 0 = some zeroPrediction := by
    simp only [predict_and_visualize, List.get?]
    rfl
  exact ⟨hr,
    ((predict_deterministic_argmax zeroNet [((fun _ => 0), 0)] 0).2 zeroPrediction hr).1⟩

/-- C5: round-trip fidelity of model serialization: after log_model stores
the trained model under the run and register_model creates version 1 under a
previously unused name, load_model at version 1 returns a model whose
input-output function is identical to the logged model's, on every input. -/
theorem log_register_load_roundtrip (s : TrackingStore) (runId path name : String)
    (m : SimpleNN) (hfresh : s.registry name = []) :
    ∃ s2, (s.logModel runId path m).registerModel runId path name = some s2 ∧
      s2.loadModel name 1 = some m ∧
      ∀ x : Vec (28 * 28),
        (s2.loadModel name 1).map (fun lm => lm.forwardRow x) = some (m.forwardRow x) := by
  refine ⟨TrackingStore.mk
      (fun r p => if r = runId ∧ p = path then some m else s.runArtifacts r p)
      (fun n => if n = name then s.registry name ++ [m] else s.registry n),
      ?_, ?_, ?_⟩
  · simp [TrackingStore.registerModel, TrackingStore.logModel]
  · simp [TrackingStore.loadModel, hfresh]
  · intro x
    simp [TrackingStore.loadModel, hfresh]

/-- Witness for C5: logging the all-zero network into an empty store and
reloading version 1 recovers it. -/
theorem log_register_load_roundtrip_witness :
    ((emptyStore.logModel "run0" "mnist_model" zeroNet).registerModel
        "run0" "mnist_model" "MNISTModel").map
      (fun s2 => s2.loadModel "MNISTModel" 1) = some (some zeroNet) := by
  obtain ⟨s2, hreg, hload, _⟩ :=
    log_register_load_roundtrip emptyStore "run0" "mnist_model" "MNISTModel" zeroNet rfl
  rw [hreg, Option.map_some']
  rw [hload]

/-- C6: the script requests exactly the registry reference of name
MNISTModel at version 1, and after exactly one registration call for the
name MNISTModel that version resolves to the registered model, while every
version other than 1 (never created) fails to resolve. -/
theorem register_once_resolves_v1 (s : TrackingStore) (runId path : String)
    (m : SimpleNN) (hfresh : s.registry "MNISTModel" = []) :
    script_model_uri = modelsUri "MNISTModel" 1 ∧
    ∃ s2, (s.logModel runId path m).registerModel runId path "MNISTModel" = some s2 ∧
      s2.loadModel "MNISTModel" 1 = some m ∧
      ∀ v, v ≠ 1 → s2.loadModel "MNISTModel" v = none := by
  constructor
  · rfl
  refine ⟨TrackingStore.mk
      (fun r p => if r = runId ∧ p = path then some m else s.runArtifacts r p)
      (fun n => if n = "MNISTModel" then s.registry "MNISTModel" ++ [m] else s.registry n),
      ?_, ?_, ?_⟩
  · simp [TrackingStore.registerModel, TrackingStore.logModel]
  · simp [TrackingStore.loadModel, hfresh]
  · intro v hv
    cases v with
    | zero => simp [TrackingStore.loadModel]
    | succ k =>
      have hk : 1 ≤ k := by omega
      simp only [TrackingStore.loadModel, hfresh]
      rw [if_neg (by omega)]
      simp only [if_pos rfl, List.nil_append, Nat.add_sub_cancel]
      exact List.get?_eq_none.mpr (by simpa using hk)

/-- Witness for C6: in the concretely built store, version 1 resolves to the
registered network and version 2 does not resolve. -/
theorem register_once_resolves_v1_witness :
    script_model_uri = modelsUri "MNISTModel" 1 ∧
    ((emptyStore.logModel "run0" "mnist_model" zeroNet).registerModel
        "run0" "mnist_model" "MNISTModel").map
      (fun s2 => (s2.loadModel "MNISTModel" 1, s2.loadModel "MNISTModel" 2)) =
      some (some zeroNet, none) := by
  obtain ⟨hparse, s2, hreg, hload, hnone⟩ :=
    register_once_resolves_v1 emptyStore "run0" "mnist_model" zeroNet rfl
  refine ⟨hparse, ?_⟩
  rw [hreg, Option.map_some', hload, hnone 2 (by omega)]

/-- Helper: binding after a failed Except step propagates the error. -/
theorem except_error_bind {ε α β : Type} (e : ε) (f : α → Except ε β) :
    ((Except.error e : Except ε α) >>= f) = Except.error e := rfl

/-- Helper: binding after a successful Except step continues with its value. -/
theorem except_ok_bind {ε α β : Type} (a : α) (f : α → Except ε β) :
    ((Except.ok a : Except ε α) >>= f) = f a := rfl

/-- Helper: if every metric-logging call fails (the tracking server became
unreachable), the epoch loop fails with that error on its first epoch. -/
theorem runEpochs_metric_error (env : Env) (trainB testB : List Batch) (e : String)
    (h : ∀ n v s, env.logMetricC n v s = Except.error e) :
    ∀ k, k ≠ 0 → ∀ i m, runEpochs env trainB testB i k m = Except.error e := by
  intro k hk i m
  cases k with
  | zero => exact absurd rfl hk
  | succ k => simp [runEpochs, h, except_error_bind, except_ok_bind]

/-- Helper: if every metric-logging call succeeds, the epoch loop succeeds
and returns the pure model evolution of the training folds. -/
theorem runEpochs_metric_ok (env : Env) (trainB testB : List Batch)
    (h : ∀ n v s, env.logMetricC n v s = Except.ok ()) :
    ∀ k i m, runEpochs env trainB testB i k m =
      Except.ok (pureEpochs env.stepFn env.criterion trainB k m) := by
  intro k
  induction k with
  | zero => intro i m; rfl
  | succ k ih => intro i m; simp [runEpochs, h, pureEpochs, ih, except_error_bind, except_ok_bind]

/-- C8: the script implements no error handling: whichever external call is
the first to fail (experiment configuration, either dataset load, starting
the run, parameter logging, metric logging, model artifact upload, model
registration, model reload, or the dataset access inside
predict_and_visualize at an out-of-range index), the error propagates
uncaught to the script's result; nothing catches, retries or recovers. -/
theorem script_no_error_handling (env : Env) (model0 : SimpleNN) (e : String) :
    (env.setExperiment = Except.error e ∨
     env.setExperiment = Except.ok () ∧ (env.loadTrainData = Except.error e ∨
      (∃ trainB, env.loadTrainData = Except.ok trainB ∧ (env.loadTestData = Except.error e ∨
       (∃ testB, env.loadTestData = Except.ok testB ∧ (env.startRun = Except.error e ∨
        (∃ runId, env.startRun = Except.ok runId ∧
         ((∀ n v, env.logParamC n v = Except.error e) ∨
          (∀ n v, env.logParamC n v = Except.ok ()) ∧
           ((∀ n v s, env.logMetricC n v s = Except.error e) ∨
            (∀ n v s, env.logMetricC n v s = Except.ok ()) ∧
             ((∀ p m, env.logModelC p m = Except.error e) ∨
              (∀ p m, env.logModelC p m = Except.ok ()) ∧
               ((∀ u n, env.registerModelC u n = Except.error e) ∨
                (∀ u n, env.registerModelC u n = Except.ok ()) ∧
                 ((∀ u, env.loadModelC u = Except.error e) ∨
                  (∃ lm, env.loadModelC script_model_uri = Except.ok lm) ∧
                   env.testDataset = [] ∧ e = "IndexError")))))))))))) →
    script env model0 = Except.error e := by
  intro h
  rcases h with h1 | ⟨h1, h⟩
  · simp [script, h1, except_error_bind, except_ok_bind]
  rcases h with h2 | ⟨trainB, h2, h⟩
  · simp [script, h1, h2, except_error_bind, except_ok_bind]
  rcases h with h3 | ⟨testB, h3, h⟩
  · simp [script, h1, h2, h3, except_error_bind, except_ok_bind]
  rcases h with h4 | ⟨runId, h4, h⟩
  · simp [script, h1, h2, h3, h4, except_error_bind, except_ok_bind]
  rcases h with h5 | ⟨h5, h⟩
  · simp [script, h1, h2, h3, h4, h5, except_error_bind, except_ok_bind]
  rcases h with h6 | ⟨h6, h⟩
  · have hrun := runEpochs_metric_error env trainB testB e h6 epochs (by decide)
    simp [script, h1, h2, h3, h4, h5, hrun, except_error_bind, except_ok_bind]
  have hrun := runEpochs_metric_ok env trainB testB h6
  rcases h with h7 | ⟨h7, h⟩
  · simp [script, h1, h2, h3, h4, h5, hrun, h7, except_error_bind, except_ok_bind]
  rcases h with h8 | ⟨h8, h⟩
  · simp [script, h1, h2, h3, h4, h5, hrun, h7, h8, except_error_bind, except_ok_bind]
  rcases h with h9 | ⟨⟨lm, h9⟩, hds, he⟩
  · simp [script, h1, h2, h3, h4, h5, hrun, h7, h8, h9, except_error_bind, except_ok_bind]
  · subst he
    simp [script, h1, h2, h3, h4, h5, hrun, h7, h8, h9, hds, predict_and_visualize, except_error_bind, except_ok_bind]

/-- Witness for C8: in an environment whose experiment-configuration call
fails with a connection error, the whole script fails with that error. -/
theorem script_no_error_handling_witness :
    script failEnv zeroNet = Except.error "ConnectionError" :=
  script_no_error_handling failEnv zeroNet "ConnectionError" (Or.inl rfl)

end MlflowExample
